import Mathlib

/-!
Verification of the secureBackend scan-orchestration service.

The development shallowly embeds the scoring, counting, normalization and
error-handling logic of the repository:

* `app/core/security.py` — `calculate_security_score`, `count_severities`
* `app/main.py` — `calculate_security_score`, `count_severities`, `run_semgrep`,
  and the persistence tail of `upload_file`
* `app/services/owasp_service.py` — the inline severity counting / scoring of
  `OWASPService.start_scan`, the alert-to-vulnerability normalization, and the
  `OWASPService.calculate_security_score` method
* `app/services/supabase_service.py` — `store_scan_results`

Python `float` weights (1.0, 0.7, 0.3, …) are modelled as exact rationals and
Python's built-in `round` (round-half-to-even) as `pyRound` on `ℚ`.
-/

/-- Python's built-in `round` on a real number with no `ndigits`:
round half to even (banker's rounding), modelled on `ℚ`. -/
def pyRound (q : ℚ) : ℤ :=
  if Int.fract q < 1/2 then ⌊q⌋
  else if (1:ℚ)/2 < Int.fract q then ⌊q⌋ + 1
  else if ⌊q⌋ % 2 = 0 then ⌊q⌋ else ⌊q⌋ + 1

/-- A raw finding as a (partial) dictionary: `severity?` models the top-level
`"severity"` key, `extraSeverity?` models `finding["extra"]["severity"]`
(`none` when either `extra` or its `severity` entry is absent). -/
structure Finding where
  severity? : Option String
  extraSeverity? : Option String
deriving DecidableEq, Repr

/-- Python's `str.upper()` (ASCII), applied characterwise; extensionally
`String.toUpper`, written through the character list so that it reduces. -/
def pyUpper (s : String) : String := ⟨s.data.map Char.toUpper⟩

/-- The severity-weight table of `app/core/security.py`:
`risk_weights.get(severity, 0.3)` — `ERROR` 1.0, `WARNING` 0.7, `INFO` 0.3,
any other key falls back to the 0.3 default. -/
def risk_weights (s : String) : ℚ :=
  if s = "ERROR" then 1
  else if s = "WARNING" then 7/10
  else if s = "INFO" then 3/10
  else 3/10

/-- `vuln.get("severity", "INFO").upper()` followed by the weight lookup,
as in `app/core/security.py::calculate_security_score`. -/
def vulnWeight (f : Finding) : ℚ :=
  risk_weights (pyUpper (f.severity?.getD "INFO"))

/-- `app/core/security.py::calculate_security_score`: total weight over the
findings, normalized by `len * 1.0`, `10` when there are no findings, else
`max(0, min(10, int(round((1 - total/max) * 10))))`. -/
def calculate_security_score (vulns : List Finding) : ℤ :=
  let total_weight : ℚ := (vulns.map vulnWeight).sum
  let max_possible_weight : ℚ := vulns.length
  if max_possible_weight = 0 then 10
  else max 0 (min 10 (pyRound ((1 - total_weight / max_possible_weight) * 10)))

/-- Canonical three-level severity scale of the spec. -/
inductive Sev where
  | ERROR
  | WARNING
  | INFO
deriving DecidableEq, Repr

/-- Spec §4.2 weights for the canonical SAST formula. -/
def specWeight : Sev → ℚ
  | .ERROR => 1
  | .WARNING => 7/10
  | .INFO => 3/10

/-- Spec §4.1 SAST normalization: identity with uppercasing, default `INFO`
for a missing severity, `INFO` for an unrecognized one. -/
def sastNormalize (f : Finding) : Sev :=
  let s := pyUpper (f.severity?.getD "INFO")
  if s = "ERROR" then .ERROR
  else if s = "WARNING" then .WARNING
  else .INFO

/-- The canonical weighted-normalization scoring algorithm as worded in the
spec (§4.2, SAST path), on canonical severities: `total_weight` is the sum of
the weights, `max_possible_weight` the number of findings, score `10` on the
empty list, else `round((1 - total_weight/max_possible_weight) * 10)` clamped
to `[0, 10]`. -/
def spec_security_score (sevs : List Sev) : ℤ :=
  let total_weight : ℚ := (sevs.map specWeight).sum
  let max_possible_weight : ℚ := sevs.length
  if max_possible_weight = 0 then 10
  else max 0 (min 10 (pyRound ((1 - total_weight / max_possible_weight) * 10)))

/-- `d[k] = d.get(k, 0) + 1` on a Python dict modelled as an ordered
association list: an existing key is updated in place, a new key is
appended at the end. -/
def bump (m : List (String × Nat)) (k : String) : List (String × Nat) :=
  match m with
  | [] => [(k, 1)]
  | (k', v) :: rest => if k' = k then (k', v + 1) :: rest else (k', v) :: bump rest k

/-- `sum(d.values())` for a dict modelled as an association list. -/
def countsSum (m : List (String × Nat)) : Nat := (m.map Prod.snd).sum

/-- `app/core/security.py::count_severities`: start from
`{"ERROR": 0, "WARNING": 0, "INFO": 0}` and bump the key
`vuln.get('severity', 'INFO').upper()` for each finding. -/
def core_count_severities (vulns : List Finding) : List (String × Nat) :=
  vulns.foldl (fun m v => bump m (pyUpper (v.severity?.getD "INFO")))
    [("ERROR", 0), ("WARNING", 0), ("INFO", 0)]

/-- `app/main.py::count_severities`: start from the same three buckets and
bump the key `vuln.get("extra", {}).get("severity", "INFO")` (no upper). -/
def main_count_severities (vulns : List Finding) : List (String × Nat) :=
  vulns.foldl (fun m v => bump m (v.extraSeverity?.getD "INFO"))
    [("ERROR", 0), ("WARNING", 0), ("INFO", 0)]

/-- A raw ZAP alert dict (`OWASPService.start_scan`); every field optional. -/
structure Alert where
  risk? : Option String := none
  name? : Option String := none
  description? : Option String := none
  url? : Option String := none
  pluginId? : Option String := none
  solution? : Option String := none
  reference? : Option String := none
  evidence? : Option String := none
  confidence? : Option String := none
deriving DecidableEq, Repr

/-- The inline `severity_count` of `OWASPService.start_scan`:
`ERROR` counts alerts with risk `High`, `WARNING` those with `Medium`,
`INFO` those with `Low` plus those with `Info`; any other risk value is
counted nowhere. -/
def dast_severity_count (alerts : List Alert) : List (String × Nat) :=
  [("ERROR", (alerts.filter (fun a => a.risk? == some "High")).length),
   ("WARNING", (alerts.filter (fun a => a.risk? == some "Medium")).length),
   ("INFO", (alerts.filter (fun a => a.risk? == some "Low")).length
      + (alerts.filter (fun a => a.risk? == some "Info")).length)]

/-- The parsed JSON document of a semgrep run: the optional `"results"` key. -/
structure SemgrepJson where
  results? : Option (List Finding)
deriving DecidableEq, Repr

/-- Outcome of the semgrep subprocess in `app/main.py::run_semgrep`:
non-zero exit (`subprocess.CalledProcessError` with its stderr), stdout that
is not valid JSON (`json.JSONDecodeError`), or a parsed JSON document. -/
inductive SemgrepRun where
  | callError (stderr : String)
  | jsonError
  | parsed (j : SemgrepJson)
deriving DecidableEq, Repr

/-- The post-filter of `run_semgrep`:
`result.get("extra", {}).get("severity") in ["ERROR", "WARNING"]`. -/
def severeFilter (r : Finding) : Bool :=
  r.extraSeverity? == some "ERROR" || r.extraSeverity? == some "WARNING"

/-- `app/main.py::run_semgrep` after the subprocess returns: empty list on a
non-zero exit or unparseable output; otherwise the `"results"` entries
filtered to `ERROR`/`WARNING` severities (empty when the key is absent). -/
def run_semgrep : SemgrepRun → List Finding
  | .callError _ => []
  | .jsonError => []
  | .parsed j =>
      match j.results? with
      | some rs => rs.filter severeFilter
      | none => []

/-- `app/main.py::calculate_security_score`:
`max(0, 10 - severe_count)` where `severe_count` counts findings whose
`extra.severity` is `ERROR` or `WARNING`. -/
def main_calculate_security_score (vulns : List Finding) : ℤ :=
  max 0 (10 - ((vulns.filter severeFilter).length : ℤ))

/-- The inline security score of `OWASPService.start_scan`: `10` on zero
alerts, else `max(0, round(10 - (3*ERROR + 2*WARNING + 1*INFO) / total))`
computed from the inline severity counts. -/
def start_scan_security_score (alerts : List Alert) : ℤ :=
  let eC : ℤ := (alerts.filter (fun a => a.risk? == some "High")).length
  let wC : ℤ := (alerts.filter (fun a => a.risk? == some "Medium")).length
  let iC : ℤ := (alerts.filter (fun a => a.risk? == some "Low")).length
      + (alerts.filter (fun a => a.risk? == some "Info")).length
  if alerts.length = 0 then 10
  else max 0 (pyRound (10 - ((eC * 3 + wC * 2 + iC : ℤ) : ℚ) / (alerts.length : ℚ)))

/-- `alert.get('risk', 'Info')` in `OWASPService.calculate_security_score`. -/
def methodRisk (a : Alert) : String := a.risk?.getD "Info"

/-- The `OWASPService.calculate_security_score` method: `10` on an empty
alert list; counts per risk level (a missing risk defaults to `Info`, an
unrecognized one is dropped); `10` again when no alert was counted; else
`max(0, min(10, round(10 - (1.0*High + 0.5*Medium + 0.1*Low + 0.01*Info) /
counted)))`. -/
def owasp_calculate_security_score (alerts : List Alert) : ℤ :=
  if alerts = [] then 10
  else
    let hi : ℚ := (alerts.filter (fun a => methodRisk a == "High")).length
    let med : ℚ := (alerts.filter (fun a => methodRisk a == "Medium")).length
    let low : ℚ := (alerts.filter (fun a => methodRisk a == "Low")).length
    let inf : ℚ := (alerts.filter (fun a => methodRisk a == "Info")).length
    let total_weight : ℚ := hi + med + low + inf
    if total_weight = 0 then 10
    else
      let weighted_score : ℚ := hi * 1 + med * (1/2) + low * (1/10) + inf * (1/100)
      max 0 (min 10 (pyRound (10 - weighted_score / total_weight)))

/-- The canonical (semgrep-shaped) vulnerability record built by
`OWASPService.start_scan` from one ZAP alert. Line numbers use the sentinel 0. -/
structure Vulnerability where
  check_id : String
  path : String
  startLine : Nat
  endLine : Nat
  message : String
  severity : String
  description : String
  solution : String
  reference : String
  evidence : String
  confidence : String
deriving DecidableEq, Repr

/-- The alert-formatting loop body of `OWASPService.start_scan`: every field
read with `alert.get(..., default)`, severity
`"ERROR" if risk == "High" else "WARNING" if risk == "Medium" else "INFO"`. -/
def normalize_alert (a : Alert) : Vulnerability where
  check_id := "zap-" ++ a.pluginId?.getD "unknown"
  path := a.url?.getD ""
  startLine := 0
  endLine := 0
  message := a.name?.getD ""
  severity :=
    if a.risk? = some "High" then "ERROR"
    else if a.risk? = some "Medium" then "WARNING"
    else "INFO"
  description := a.description?.getD ""
  solution := a.solution?.getD ""
  reference := a.reference?.getD ""
  evidence := a.evidence?.getD ""
  confidence := a.confidence?.getD ""

/-- Spec §4.1 DAST severity table: `High → ERROR`, `Medium → WARNING`,
everything else (`Low`, `Info`, a missing or unrecognized risk) `→ INFO`. -/
def specDastSeverity (r : Option String) : String :=
  if r = some "High" then "ERROR"
  else if r = some "Medium" then "WARNING"
  else "INFO"

/-- A record as returned by the datastore insert; only its assigned id is
relevant here. -/
structure StoredRecord where
  id : String
deriving DecidableEq, Repr

/-- An HTTP-level failure (`HTTPException(status_code, detail)`). -/
structure HTTPError where
  statusCode : Nat
  detail : String
deriving DecidableEq, Repr

/-- `app/services/supabase_service.py::store_scan_results`, parameterized by
the `result.data` of the insert (`none` models absent data, `some []` empty
data — both falsy in Python). The inner `HTTPException(500, ...)` raised on
falsy data is caught by the function's own `except Exception` and re-raised
as `HTTPException(500, "Database error: ...")`; otherwise `result.data[0]`
is returned. -/
def store_scan_results (insertData : Option (List StoredRecord)) :
    Except HTTPError StoredRecord :=
  let inner : Except HTTPError StoredRecord :=
    match insertData with
    | none => .error ⟨500, "Failed to store results in database"⟩
    | some [] => .error ⟨500, "Failed to store results in database"⟩
    | some (r :: _) => .ok r
  match inner with
  | .error e => .error ⟨500, "Database error: " ++ e.detail⟩
  | .ok r => .ok r

/-- The persistence tail of `app/main.py::upload_file`: raise
`HTTPException(500, ...)` when `result.data` is falsy, else answer with
`scan_id = result.data[0]["id"]`; the endpoint's outer `except Exception`
re-raises any failure as HTTP 500 with the error text. -/
def upload_file_persist (insertData : Option (List StoredRecord)) :
    Except HTTPError String :=
  let body : Except HTTPError String :=
    match insertData with
    | none => .error ⟨500, "Failed to store results in database"⟩
    | some [] => .error ⟨500, "Failed to store results in database"⟩
    | some (r :: _) => .ok r.id
  match body with
  | .error e => .error ⟨500, e.detail⟩
  | .ok s => .ok s

theorem floor_le_pyRound (q : ℚ) : ⌊q⌋ ≤ pyRound q := by
  unfold pyRound; split_ifs <;> omega

theorem pyRound_le_floor_add_one (q : ℚ) : pyRound q ≤ ⌊q⌋ + 1 := by
  unfold pyRound; split_ifs <;> omega

theorem pyRound_intCast (z : ℤ) : pyRound (z : ℚ) = z := by
  unfold pyRound
  rw [Int.fract_intCast, Int.floor_intCast]
  norm_num

theorem pyRound_mono {q r : ℚ} (h : q ≤ r) : pyRound q ≤ pyRound r := by
  rcases lt_or_le ⌊q⌋ ⌊r⌋ with hlt | hle
  · have h1 := pyRound_le_floor_add_one q
    have h2 := floor_le_pyRound r
    omega
  · have heq : ⌊q⌋ = ⌊r⌋ := le_antisymm (Int.floor_le_floor h) hle
    have hfr : Int.fract q ≤ Int.fract r := by
      unfold Int.fract
      rw [heq]
      linarith
    unfold pyRound
    rw [heq]
    split_ifs <;> first | omega | linarith

theorem pyUpper_ERROR : pyUpper "ERROR" = "ERROR" := rfl

theorem pyUpper_WARNING : pyUpper "WARNING" = "WARNING" := rfl

theorem pyUpper_INFO : pyUpper "INFO" = "INFO" := rfl

theorem specWeight_sastNormalize (f : Finding) :
    specWeight (sastNormalize f) = vulnWeight f := by
  unfold specWeight sastNormalize vulnWeight risk_weights
  split_ifs <;> simp_all [specWeight]

theorem weight_sum_eq (L : List Finding) :
    ((L.map sastNormalize).map specWeight).sum = (L.map vulnWeight).sum := by
  induction L with
  | nil => rfl
  | cons f t ih =>
      simp only [List.map_cons, List.sum_cons, specWeight_sastNormalize, ih]

/-- Claim C1: the SAST security score of `app/core/security.py` coincides, on
every finding list, with the canonical weighted-normalization algorithm of the
spec applied to the normalized severities; in particular the list with
severities `[ERROR, ERROR, WARNING]` scores 1. -/
theorem thm_C1 :
    (∀ L : List Finding,
      calculate_security_score L = spec_security_score (L.map sastNormalize)) ∧
    calculate_security_score
      [⟨some "ERROR", none⟩, ⟨some "ERROR", none⟩, ⟨some "WARNING", none⟩] = 1 := by
  constructor
  · intro L
    unfold calculate_security_score spec_security_score
    simp only [weight_sum_eq, List.length_map]
  · have h1 : vulnWeight ⟨some "ERROR", none⟩ = 1 := by
      simp [vulnWeight, pyUpper_ERROR, risk_weights]
    have h2 : vulnWeight ⟨some "WARNING", none⟩ = 7/10 := by
      simp [vulnWeight, pyUpper_WARNING, risk_weights]
    have h3 : pyRound (1 : ℚ) = 1 := by
      simpa using pyRound_intCast 1
    simp only [calculate_security_score, List.map_cons, List.map_nil,
      List.sum_cons, List.sum_nil, List.length_cons, List.length_nil, h1, h2]
    norm_num [h3]

theorem countsSum_bump (m : List (String × Nat)) (k : String) :
    countsSum (bump m k) = countsSum m + 1 := by
  induction m with
  | nil => rfl
  | cons p rest ih =>
      obtain ⟨k', v⟩ := p
      unfold bump
      split_ifs with h
      · simp [countsSum]
        omega
      · simp [countsSum] at ih ⊢
        omega

theorem countsSum_foldl_bump (key : Finding → String) (L : List Finding) :
    ∀ m : List (String × Nat),
      countsSum (L.foldl (fun acc v => bump acc (key v)) m) =
        countsSum m + L.length := by
  induction L with
  | nil => intro m; simp
  | cons f t ih =>
      intro m
      simp only [List.foldl_cons, ih, countsSum_bump, List.length_cons]
      omega

/-- Claim C2 fails on the DAST path: a single alert whose risk is outside
the recognized four-level scale (e.g. `Informational`) is dropped from every
bucket of the inline `severity_count`, so the counts sum to 0 while
`total_vulnerabilities` is 1. -/
theorem C2_counterexample :
    countsSum (dast_severity_count [{ risk? := some "Informational" }]) ≠
      ([({ risk? := some "Informational" } : Alert)]).length := by
  simp [dast_severity_count, countsSum, List.filter]

/-- Claim C2 as amended: both SAST severity counters reconcile with the
finding-list length for every finding list (unrecognized severities get their
own bucket); the DAST inline counter reconciles exactly when every alert's
risk is one of `High`, `Medium`, `Low`, `Info` — alerts with a missing or
unrecognized risk are silently dropped from the histogram. -/
theorem C2_amended :
    (∀ L : List Finding, countsSum (core_count_severities L) = L.length) ∧
    (∀ L : List Finding, countsSum (main_count_severities L) = L.length) ∧
    (∀ alerts : List Alert,
      (∀ a ∈ alerts, a.risk? = some "High" ∨ a.risk? = some "Medium" ∨
        a.risk? = some "Low" ∨ a.risk? = some "Info") →
      countsSum (dast_severity_count alerts) = alerts.length) := by
  refine ⟨?_, ?_, ?_⟩
  · intro L
    unfold core_count_severities
    rw [countsSum_foldl_bump]
    simp [countsSum]
  · intro L
    unfold main_count_severities
    rw [countsSum_foldl_bump]
    simp [countsSum]
  · intro alerts h
    induction alerts with
    | nil => rfl
    | cons a t ih =>
        have ha := h a (List.mem_cons_self a t)
        have ih' := ih (fun x hx => h x (List.mem_cons_of_mem a hx))
        simp only [dast_severity_count, countsSum, List.map_cons, List.map_nil,
          List.sum_cons, List.sum_nil, List.filter_cons] at ih' ⊢
        rcases ha with ha | ha | ha | ha <;>
          simp [ha] <;> omega

/-- Witness for C2 as amended, at a one-element list on each path. -/
theorem C2_witness :
    countsSum (dast_severity_count [{ risk? := some "High" }]) = 1 ∧
    countsSum (core_count_severities [⟨some "ERROR", none⟩]) = 1 := by
  constructor
  · exact C2_amended.2.2 [{ risk? := some "High" }] (by simp)
  · exact C2_amended.1 [⟨some "ERROR", none⟩]

/-- Claim C8: a non-zero semgrep exit status and unparseable semgrep output
both make `run_semgrep` return the empty findings list instead of raising. -/
theorem thm_C8 :
    (∀ stderr : String, run_semgrep (.callError stderr) = []) ∧
    run_semgrep .jsonError = [] :=
  ⟨fun _ => rfl, rfl⟩

/-- Claim C3 at a failing input: a semgrep run with one finding of severity
`ERROR` (under `extra`, as semgrep emits it) survives the post-filter, yet
`app/core/security.py::count_severities` — which reads a top-level
`severity` key — files it under `INFO`, so the `scan.py` SAST pipeline
reports `INFO = 1`; `app/main.py`'s own counter reports `INFO = 0`. -/
theorem thm_C3_eval :
    run_semgrep (.parsed ⟨some [⟨none, some "ERROR"⟩]⟩) = [⟨none, some "ERROR"⟩] ∧
    List.lookup "INFO"
      (core_count_severities (run_semgrep (.parsed ⟨some [⟨none, some "ERROR"⟩]⟩))) =
      some 1 ∧
    List.lookup "INFO"
      (main_count_severities (run_semgrep (.parsed ⟨some [⟨none, some "ERROR"⟩]⟩))) =
      some 0 := by
  refine ⟨rfl, rfl, rfl⟩

theorem clamp_nonneg (x : ℤ) : 0 ≤ max 0 (min 10 x) := le_max_left 0 _

theorem clamp_le_ten (x : ℤ) : max 0 (min 10 x) ≤ 10 :=
  max_le (by norm_num) (min_le_left 10 x)

theorem pyRound_ten : pyRound (10 : ℚ) = 10 := by
  simpa using pyRound_intCast 10

theorem core_score_range (L : List Finding) :
    0 ≤ calculate_security_score L ∧ calculate_security_score L ≤ 10 := by
  simp only [calculate_security_score]
  split_ifs
  · norm_num
  · exact ⟨clamp_nonneg _, clamp_le_ten _⟩

/-- Claim C4: all four score computations in the repository — the
`app/core/security.py` scorer, the `app/main.py` scorer, the inline
`start_scan` score, and the `OWASPService.calculate_security_score`
method — return a value in `[0, 10]` on every finding/alert list, and
return exactly `10` on the empty list. -/
theorem thm_C4 :
    (∀ L : List Finding,
      0 ≤ calculate_security_score L ∧ calculate_security_score L ≤ 10) ∧
    calculate_security_score [] = 10 ∧
    (∀ L : List Finding,
      0 ≤ main_calculate_security_score L ∧ main_calculate_security_score L ≤ 10) ∧
    main_calculate_security_score [] = 10 ∧
    (∀ A : List Alert,
      0 ≤ start_scan_security_score A ∧ start_scan_security_score A ≤ 10) ∧
    start_scan_security_score [] = 10 ∧
    (∀ A : List Alert,
      0 ≤ owasp_calculate_security_score A ∧ owasp_calculate_security_score A ≤ 10) ∧
    owasp_calculate_security_score [] = 10 := by
  refine ⟨core_score_range, by simp [calculate_security_score], ?_,
    by simp [main_calculate_security_score], ?_,
    by simp [start_scan_security_score], ?_,
    by simp [owasp_calculate_security_score]⟩
  · intro L
    unfold main_calculate_security_score
    constructor
    · exact le_max_left 0 _
    · exact max_le (by norm_num) (by omega)
  · intro A
    unfold start_scan_security_score
    split_ifs
    · norm_num
    · constructor
      · exact le_max_left 0 _
      · refine max_le (by norm_num) ?_
        have hq : (0:ℚ) ≤
            (((((A.filter (fun a => a.risk? == some "High")).length : ℤ) * 3 +
              ((A.filter (fun a => a.risk? == some "Medium")).length : ℤ) * 2 +
              (((A.filter (fun a => a.risk? == some "Low")).length : ℤ) +
               ((A.filter (fun a => a.risk? == some "Info")).length : ℤ))) : ℤ) : ℚ) /
              (A.length : ℚ) := by positivity
        calc pyRound _ ≤ pyRound (10 : ℚ) := pyRound_mono (by linarith)
          _ = 10 := pyRound_ten
  · intro A
    simp only [owasp_calculate_security_score]
    split_ifs
    · norm_num
    · norm_num
    · exact ⟨clamp_nonneg _, clamp_le_ten _⟩

theorem risk_weights_ge (s : String) : 3/10 ≤ risk_weights s := by
  unfold risk_weights
  split_ifs <;> norm_num

theorem vulnWeight_ge (f : Finding) : 3/10 ≤ vulnWeight f := risk_weights_ge _

theorem calculate_security_score_eq (L : List Finding) (h : L ≠ []) :
    calculate_security_score L =
      max 0 (min 10 (pyRound ((1 - (L.map vulnWeight).sum / (L.length : ℚ)) * 10))) := by
  simp only [calculate_security_score]
  rw [if_neg (by exact_mod_cast (List.length_pos.mpr h).ne')]

/-- Claim C10: every finding weighs at least 0.3, so once the finding list is
non-empty the normalized score of `app/core/security.py` cannot exceed 7. -/
theorem thm_C10 (L : List Finding) (h : L ≠ []) :
    calculate_security_score L ≤ 7 := by
  have hn : 0 < L.length := List.length_pos.mpr h
  have hnq : (0:ℚ) < (L.length : ℚ) := by exact_mod_cast hn
  have hb : ∀ x ∈ L.map vulnWeight, (3/10 : ℚ) ≤ x := by
    intro x hx
    obtain ⟨f, _, rfl⟩ := List.mem_map.mp hx
    exact vulnWeight_ge f
  have hsum := List.card_nsmul_le_sum (L.map vulnWeight) ((3:ℚ)/10) hb
  rw [List.length_map, nsmul_eq_mul] at hsum
  have hdiv : (3/10 : ℚ) ≤ (L.map vulnWeight).sum / (L.length : ℚ) := by
    rw [le_div_iff₀ hnq]
    linarith
  have harg : (1 - (L.map vulnWeight).sum / (L.length : ℚ)) * 10 ≤ 7 := by
    linarith
  have h7 : pyRound ((1 - (L.map vulnWeight).sum / (L.length : ℚ)) * 10) ≤ 7 := by
    calc pyRound ((1 - (L.map vulnWeight).sum / (L.length : ℚ)) * 10)
        ≤ pyRound (7 : ℚ) := pyRound_mono harg
      _ = 7 := by simpa using pyRound_intCast 7
  rw [calculate_security_score_eq L h]
  exact max_le (by norm_num) (le_trans (min_le_right _ _) h7)

/-- Witness for C10: a single `INFO` finding scores exactly at the bound. -/
theorem thm_C10_witness : calculate_security_score [⟨some "INFO", none⟩] ≤ 7 :=
  thm_C10 [⟨some "INFO", none⟩] (by simp)

/-- Claim C5: appending one finding whose weight dominates the weights
already present never raises the score of `app/core/security.py` (severity
order `ERROR > WARNING > INFO` coincides with weight order `1.0 > 0.7 >
0.3`, so this is monotone non-increase under equal-or-higher-severity
additions). -/
theorem thm_C5 (L : List Finding) (f : Finding)
    (h : ∀ g ∈ L, vulnWeight g ≤ vulnWeight f) :
    calculate_security_score (L ++ [f]) ≤ calculate_security_score L := by
  rcases eq_or_ne L [] with rfl | hne
  · have h1 := (core_score_range [f]).2
    have h2 : calculate_security_score ([] : List Finding) = 10 := by
      simp [calculate_security_score]
    simpa [h2] using h1
  · have hn : 0 < L.length := List.length_pos.mpr hne
    have hnq : (0:ℚ) < (L.length : ℚ) := by exact_mod_cast hn
    have hb : ∀ x ∈ L.map vulnWeight, x ≤ vulnWeight f := by
      intro x hx
      obtain ⟨g, hg, rfl⟩ := List.mem_map.mp hx
      exact h g hg
    have hsum := List.sum_le_card_nsmul (L.map vulnWeight) (vulnWeight f) hb
    rw [List.length_map, nsmul_eq_mul] at hsum
    rw [calculate_security_score_eq L hne,
      calculate_security_score_eq (L ++ [f]) (by simp)]
    apply max_le_max le_rfl
    apply min_le_min le_rfl
    apply pyRound_mono
    have hlen : ((L ++ [f]).length : ℚ) = (L.length : ℚ) + 1 := by
      simp
    have hmap : ((L ++ [f]).map vulnWeight).sum =
        (L.map vulnWeight).sum + vulnWeight f := by
      simp
    rw [hlen, hmap]
    have key : (L.map vulnWeight).sum / (L.length : ℚ) ≤
        ((L.map vulnWeight).sum + vulnWeight f) / ((L.length : ℚ) + 1) := by
      rw [div_le_div_iff₀ hnq (by linarith)]
      nlinarith [hsum]
    linarith

/-- Witness for C5: appending an `ERROR` finding to a single-`WARNING` list
drops the score from 3 to 2. -/
theorem thm_C5_witness :
    calculate_security_score ([⟨some "WARNING", none⟩] ++ [⟨some "ERROR", none⟩]) ≤
      calculate_security_score [⟨some "WARNING", none⟩] := by
  apply thm_C5
  intro g hg
  have hg' : g = ⟨some "WARNING", none⟩ := by simpa using hg
  subst hg'
  simp [vulnWeight, pyUpper_WARNING, pyUpper_ERROR, risk_weights]
  norm_num

/-- Claim C6: the DAST normalization is total — every alert yields exactly one
vulnerability; any risk other than `High`/`Medium` (so `Low`, `Info`, missing,
unrecognized) lands on `INFO`; the severity always follows the spec table; and
an alert with every field missing is normalized with the documented defaults
instead of failing. -/
theorem thm_C6 (a : Alert) (h1 : a.risk? ≠ some "High")
    (h2 : a.risk? ≠ some "Medium") :
    (normalize_alert a).severity = "INFO" ∧
    (∀ b : Alert, (normalize_alert b).severity = specDastSeverity b.risk?) ∧
    specDastSeverity (some "High") = "ERROR" ∧
    specDastSeverity (some "Medium") = "WARNING" ∧
    specDastSeverity (some "Low") = "INFO" ∧
    specDastSeverity (some "Info") = "INFO" ∧
    specDastSeverity none = "INFO" ∧
    normalize_alert {} =
      { check_id := "zap-unknown", path := "", startLine := 0, endLine := 0,
        message := "", severity := "INFO", description := "", solution := "",
        reference := "", evidence := "", confidence := "" } := by
  refine ⟨?_, fun b => rfl, rfl, rfl, ?_, ?_, rfl, rfl⟩
  · simp [normalize_alert, h1, h2]
  · simp [specDastSeverity]
  · simp [specDastSeverity]

/-- Witness for C6, at an alert whose risk is `Low`. -/
theorem thm_C6_witness :
    (normalize_alert { risk? := some "Low" }).severity = "INFO" :=
  (thm_C6 { risk? := some "Low" } (by simp) (by simp)).1

theorem pyRound_zero : pyRound (0 : ℚ) = 0 := by
  simpa using pyRound_intCast 0

theorem pyRound_seven : pyRound (7 : ℚ) = 7 := by
  simpa using pyRound_intCast 7

/-- Claim C7 fails: on one finding of canonical severity `ERROR` (risk
`High`), the SAST scorer answers 0 while the DAST inline scorer answers 7. -/
theorem C7_counterexample :
    calculate_security_score [⟨some "ERROR", none⟩] ≠
      start_scan_security_score [{ risk? := some "High" }] := by
  have h1 : calculate_security_score [⟨some "ERROR", none⟩] = 0 := by
    have hw : vulnWeight ⟨some "ERROR", none⟩ = 1 := by
      simp [vulnWeight, pyUpper_ERROR, risk_weights]
    simp only [calculate_security_score, List.map_cons, List.map_nil,
      List.sum_cons, List.sum_nil, List.length_cons, List.length_nil, hw]
    norm_num [pyRound_zero]
  have h2 : start_scan_security_score [{ risk? := some "High" }] = 7 := by
    simp [start_scan_security_score, List.filter]
    norm_num [pyRound_seven]
  rw [h1, h2]
  norm_num

/-- Claim C7 as amended: the two scan paths do not share one scoring
formula. They agree on the empty finding set (both 10), but a single
`ERROR`-severity finding scores 0 through the SAST weighted-normalization
path and 7 through the DAST `3/2/1` path. -/
theorem C7_amended :
    calculate_security_score ([] : List Finding) = 10 ∧
    start_scan_security_score ([] : List Alert) = 10 ∧
    calculate_security_score [⟨some "ERROR", none⟩] = 0 ∧
    start_scan_security_score [{ risk? := some "High" }] = 7 := by
  refine ⟨by simp [calculate_security_score], by simp [start_scan_security_score],
    ?_, ?_⟩
  · have hw : vulnWeight ⟨some "ERROR", none⟩ = 1 := by
      simp [vulnWeight, pyUpper_ERROR, risk_weights]
    simp only [calculate_security_score, List.map_cons, List.map_nil,
      List.sum_cons, List.sum_nil, List.length_cons, List.length_nil, hw]
    norm_num [pyRound_zero]
  · simp [start_scan_security_score, List.filter]
    norm_num [pyRound_seven]

/-- Claim C9: when the insert returns no stored record (absent or empty
data), `store_scan_results` and the `upload_file` tail both fail with HTTP
status 500, and the caller can never receive a success response (hence never
an empty or missing `scan_id`). -/
theorem thm_C9 (d : Option (List StoredRecord))
    (h : d = none ∨ d = some []) :
    (∃ m, store_scan_results d = .error ⟨500, m⟩) ∧
    (∃ m, upload_file_persist d = .error ⟨500, m⟩) ∧
    (∀ s, upload_file_persist d ≠ .ok s) := by
  rcases h with rfl | rfl
  · exact ⟨⟨_, rfl⟩, ⟨_, rfl⟩, fun s hs => by simp [upload_file_persist] at hs⟩
  · exact ⟨⟨_, rfl⟩, ⟨_, rfl⟩, fun s hs => by simp [upload_file_persist] at hs⟩

/-- Witness for C9, at an insert that returned an empty record list. -/
theorem thm_C9_witness :
    ∃ m, store_scan_results (some []) = Except.error ⟨500, m⟩ :=
  (thm_C9 (some []) (Or.inr rfl)).1
